import Mathlib

/-!
Formal model of `profile_rds.py`, a script that provisions RDS instances with
varying parameter groups, loads test data, profiles a SQL workload on each
instance and reaps the resources afterwards.  Pure fragments of the script are
translated to Lean functions; the stateful fragments (database connections,
cursors, the boto RDS API and the profiling state of a connection) are modelled
by explicit state records and oracle functions describing the external system.
-/

set_option autoImplicit false
set_option maxRecDepth 8000

namespace ProfileRds

/-- Settings at the top of the script. -/
def DEFAULT_DATABASE : String := "testdata"

def DEFAULT_USER : String := "testuser"

def DEFAULT_PASSWD : String := "testpass"

/-- Prefix used in the names of RDS instances and parameter groups. -/
def label : String := "testing"

def inst_class : String := "db.t1.micro"

/-- List of SQL statements to profile (`test_sql`). -/
def test_sql : List String := ["set profiling=1", "select 1=1"]

/-- List of SQL statements that load the database (`load_data_sql`). -/
def load_data_sql : List String := ["select 1=1"]

def CPU_PROFILE : String := "CPU"

def CONTEXT_PROFILE : String := "CONTEXT SWITCHES"

def BLOCK_PROFILE : String := "BLOCK IO"

def IPC_PROFILE : String := "IPC"

def PAGE_PROFILE : String := "PAGE FAULTS"

def SWAPS_PROFILE : String := "SWAPS"

def SOURCE_PROFILE : String := "SOURCE"

/-- Fixed external ordering of the profiling categories. -/
def ALL_PROFILES : List String :=
  [CPU_PROFILE, CONTEXT_PROFILE, BLOCK_PROFILE, IPC_PROFILE,
   PAGE_PROFILE, SWAPS_PROFILE, SOURCE_PROFILE]

/-- Default set of profiles to use. -/
def PROFILES : List String := ALL_PROFILES

/-- Values appearing in the script are either strings or integers; `pyStr`
mirrors Python's `str`. -/
inductive Value where
  | s (v : String)
  | n (v : Nat)
deriving DecidableEq

def pyStr : Value → String
  | .s v => v
  | .n v => toString v

/-- The `profile_headers` table: category name to (header labels, column
format specs).  Unknown keys raise `KeyError` in the source, modelled by
`none`. -/
def profile_headers : String → Option (List String × List String) := fun k =>
  if k = "Always" then
    some (["", "Status", "Duration"], ["\x7b:20\x7d", "\x7b:>10\x7d"])
  else if k = CPU_PROFILE then
    some (["", "CPU User", "CPU System"], ["\x7b:>10\x7d", "\x7b:>11\x7d"])
  else if k = CONTEXT_PROFILE then
    some (["Context", "voluntary", "involuntary"], ["\x7b:>10\x7d", "\x7b:>12\x7d"])
  else if k = BLOCK_PROFILE then
    some (["Block", "ops in", "ops out"], ["\x7b:>7\x7d", "\x7b:>8\x7d"])
  else if k = IPC_PROFILE then
    some (["Messages", "sent", "received"], ["\x7b:>9\x7d", "\x7b:>9\x7d"])
  else if k = PAGE_PROFILE then
    some (["Page faults", "major", "minor"], ["\x7b:>12\x7d", "\x7b:>12\x7d"])
  else if k = SWAPS_PROFILE then
    some (["", "Swaps"], ["\x7b:>6\x7d"])
  else if k = SOURCE_PROFILE then
    some (["", "Source function", "Source file", "Source line"],
          ["\x7b:>18\x7d", "\x7b:>15\x7d", "\x7b:>12\x7d"])
  else none

def padRight (s : String) (w : Nat) : String :=
  s ++ String.mk (List.replicate (w - s.length) ' ')

def padLeft (s : String) (w : Nat) : String :=
  String.mk (List.replicate (w - s.length) ' ') ++ s

/-- Decimal digits to a natural number. -/
def digitsToNat (cs : List Char) : Nat :=
  cs.foldl (fun n c => n * 10 + (c.toNat - 48)) 0

/-- Interprets one of the format specs of `profile_headers` applied to a
string, as Python's `str.format` does: `{:N}` left-justifies to width `N`,
`{:>N}` right-justifies. -/
def applySpec (spec s : String) : String :=
  match (spec.data.drop 2).dropLast with
  | '>' :: ds => padLeft s (digitsToNat ds)
  | ds => padRight s (digitsToNat ds)

/-- Models `" ".join(formats).format(*args)` for specs that each hold exactly
one placeholder and an argument list of matching arity. -/
def format_line (formats args : List String) : String :=
  String.intercalate " " (List.zipWith applySpec formats args)

/-- The lines logged by `profile_report sql rows categories`: the SQL header,
a separator, two header lines built from `['Always'] + categories` and one
line per metric row.  `none` models the `KeyError` raised on an unknown
category. -/
def profile_report_lines (sql : String) (rows : List (List Value))
    (categories : List String) : Option (List String) :=
  match ("Always" :: categories).mapM profile_headers with
  | none => none
  | some entries =>
    let formats := entries.flatMap (fun e => e.2)
    let headers1 := entries.flatMap (fun e => List.replicate e.2.length (e.1.headD ""))
    let line1 := format_line formats headers1
    let headers2 := entries.flatMap (fun e => e.1.tail)
    let line2 := format_line formats headers2
    let rowLines := rows.map (fun row => format_line formats (row.map pyStr))
    some (("\nSQL: " ++ sql) :: String.mk (List.replicate 20 '-') :: line1 :: line2 :: rowLines)

/-- The requested categories rearranged into the fixed external ordering. -/
def fixed_order (categories : List String) : List String :=
  ALL_PROFILES.filter (fun c => categories.contains c)

/-- Follows the spec's words (§4.6): the report rendered with the requested
category set arranged in the fixed external ordering, not request order.
Compared against `profile_report_lines`, which follows the source. -/
def profile_report_lines_fixed (sql : String) (rows : List (List Value))
    (categories : List String) : Option (List String) :=
  profile_report_lines sql rows (fixed_order categories)

/-- Standard utf8 settings appended by `add_utf8_support`. -/
def utf8params : List (String × Value) :=
  [("character_set_server", .s "utf8"),
   ("character_set_client", .s "utf8"),
   ("character_set_connection", .s "utf8"),
   ("character_set_database", .s "utf8"),
   ("character_set_results", .s "utf8"),
   ("collation_server", .s "utf8_general_ci"),
   ("collation_connection", .s "utf8_general_ci")]

/-- Extends a parameter set with the standard utf8 settings.  The source
mutates `param_set` in place via `extend`; the model returns the extended
list. -/
def add_utf8_support (param_set : List (String × Value)) : List (String × Value) :=
  param_set ++ utf8params

/-- One page of a parameter group's catalog as returned by
`rds.get_all_dbparameters`: the parameter names it holds and its pagination
`Marker`. -/
structure ParamPage where
  names : List String
  marker : String

/-- Oracle for the boto RDS parameter-group API: `fetch name marker` is the
catalog page returned by `get_all_dbparameters(name, marker=marker)`, and
`applyOK name param val` tells whether `pg[param].apply()` succeeds after
setting `pg[param].value = val`. -/
structure RdsEnv where
  fetch : String → Option String → ParamPage
  applyOK : String → String → Value → Bool

/-- Outcome of one `set_param` call. -/
inductive SPResult where
  /-- The parameter was found on the first fetched page and applied there. -/
  | appliedFirst
  /-- The parameter was applied from the page re-fetched with the marker. -/
  | appliedSecond
  /-- The parameter was absent from the re-fetched page as well
  (`KeyError`). -/
  | keyError
  /-- `apply()` raised; `second` tells whether it was the retried
  application. -/
  | applyError (second : Bool)
deriving DecidableEq

/-- The `set_param` closure of `create_param_groups`: fetches the group's
catalog, applies the parameter if present, otherwise re-fetches once with the
first fetch's marker and applies from that page.  Returns the markers passed
to the issued fetches together with the outcome. -/
def set_param (env : RdsEnv) (pg_name param : String) (val : Value) :
    List (Option String) × SPResult :=
  let pg := env.fetch pg_name none
  if param ∈ pg.names then
    ([none],
     if env.applyOK pg_name param val then .appliedFirst else .applyError false)
  else
    let pg2 := env.fetch pg_name (some pg.marker)
    ([none, some pg.marker],
     if param ∈ pg2.names then
       (if env.applyOK pg_name param val then .appliedSecond else .applyError true)
     else .keyError)

/-- Errors escaping `set_param`, which abort `create_param_groups`. -/
inductive SPErr where
  | keyError (param : String)
  | applyError (param : String)
deriving DecidableEq

/-- The inner `for pval in param_set: set_param(*pval)` loop: applies each
pair in order, returning the applied pairs or the first escaping error. -/
def apply_params (env : RdsEnv) (pg_name : String) :
    List (String × Value) → Except SPErr (List (String × Value))
  | [] => .ok []
  | (p, v) :: rest =>
    match (set_param env pg_name p v).2 with
    | .appliedFirst | .appliedSecond =>
      match apply_params env pg_name rest with
      | .ok l => .ok ((p, v) :: l)
      | .error e => .error e
    | .keyError => .error (.keyError p)
    | .applyError _ => .error (.applyError p)

/-- Result of `create_param_groups`: the returned group names and, per group,
the parameter values applied to it in order. -/
structure CPGOut where
  names : List String
  applied : List (List (String × Value))
deriving DecidableEq

/-- The enumerated loop body of `create_param_groups`, starting at `index`.
Each group is named `"pg\x7b\x7d-\x7b\x7d".format(pre, index)`; the model
covers the `isinstance(param_set, list)` branch taken for the list-of-lists
argument the script passes. -/
def create_param_groups_go (env : RdsEnv) (pre : String) :
    Nat → List (List (String × Value)) → Except SPErr CPGOut
  | _, [] => .ok ⟨[], []⟩
  | index, param_set :: rest =>
    let pg_name := "pg" ++ pre ++ "-" ++ toString index
    match apply_params env pg_name param_set with
    | .error e => .error e
    | .ok applied =>
      match create_param_groups_go env pre (index + 1) rest with
      | .error e => .error e
      | .ok out => .ok ⟨pg_name :: out.names, applied :: out.applied⟩

/-- Creates new sets of parameter groups based on the list of parameter
sets (`create_param_groups`). -/
def create_param_groups (env : RdsEnv) (pre : String)
    (params_to_vary : List (List (String × Value))) : Except SPErr CPGOut :=
  create_param_groups_go env pre 0 params_to_vary

/-- The `parameters` list of the script's entry point: one empty variant and
one varying three buffer sizes. -/
def vary_spec : List (String × Value) :=
  [("innodb_buffer_pool_size", .n (100 * 1024 * 1024)),
   ("max_heap_table_size", .n (100 * 1024 * 1024)),
   ("tmp_table_size", .n (100 * 1024 * 1024))]

def parameters : List (List (String × Value)) := [[], vary_spec]

/-- An RDS oracle whose catalog pages are empty; enough to create groups from
empty parameter sets. -/
def env0 : RdsEnv :=
  { fetch := fun _ _ => ⟨[], "m0"⟩, applyOK := fun _ _ _ => true }

/-- An RDS oracle whose first catalog page lists every parameter the script
uses, so every application succeeds on the first fetch. -/
def envOk : RdsEnv :=
  { fetch := fun _ _ => ⟨vary_spec.map Prod.fst ++ utf8params.map Prod.fst, "m0"⟩,
    applyOK := fun _ _ _ => true }

/-- An RDS oracle whose first catalog page is empty and whose marker page
holds `param_x`, exercising the pagination retry of `set_param`. -/
def envC5 : RdsEnv :=
  { fetch := fun _ m =>
      match m with
      | none => ⟨[], "MK1"⟩
      | some _ => ⟨["param_x"], "MK2"⟩,
    applyOK := fun _ _ _ => true }

/-- Substring test on character lists, modelling Python's `in` on strings. -/
def listContains (needle : List Char) : List Char → Bool
  | [] => needle.isEmpty
  | c :: rest => needle.isPrefixOf (c :: rest) || listContains needle rest

/-- Models `needle in hay` for Python strings. -/
def strContains (needle hay : String) : Bool :=
  listContains needle.data hay.data

/-- A `DBInstance` as seen through the fields the script reads. -/
structure Inst where
  id : String
  status : String
deriving DecidableEq

/-- Statuses in which `cleanup` requests deletion of an instance. -/
def deletable_statuses : List String :=
  ["available", "failed", "storage-full", "incompatible-option-group",
   "incompatible-parameters", "incompatible-restore", "incompatible-network"]

/-- One round of the `cleanup` polling loop: the full listing fetched, the
label-matching sublist, the ids whose deletion was requested, and whether the
round ended with `time.sleep(60)`. -/
structure Round where
  rs : List Inst
  label_rs : List Inst
  deletes : List String
  slept : Bool
deriving DecidableEq

/-- The `while loop < 10 and label_rs` loop of `cleanup`.  `listings n` is the
listing `rds.get_all_dbinstances()` returns in the round with counter `n`
(deletion requests take effect only through later listings, as on the remote
side).  `fuel` is `10 - loop`; `lbl` is the truthiness of `label_rs`, initially
the literal `True`.  Returns the final `loop` counter, the final `rs` and the
chronological round records. -/
def cleanup_loop (listings : Nat → List Inst) (lab : String) :
    Nat → Nat → Bool → List Inst → Nat × List Inst × List Round
  | 0, loop, _, rs => (loop, rs, [])
  | fuel + 1, loop, lbl, rs =>
    if lbl then
      let rs2 := listings loop
      let m := rs2.filter (fun d => strContains lab d.id)
      let dels := (m.filter (fun i => deletable_statuses.contains i.status)).map Inst.id
      let r := cleanup_loop listings lab fuel (loop + 1) (!m.isEmpty) rs2
      (r.1, r.2.1, ⟨rs2, m, dels, !m.isEmpty⟩ :: r.2.2)
    else (loop, rs, [])

/-- Observable outcome of `cleanup`. -/
structure CleanupOut where
  loopFinal : Nat
  rsFinal : List Inst
  rounds : List Round
  errorLogged : Bool
  pgDeletes : List String
deriving DecidableEq

/-- Deletes RDS instances, waiting until they do not exist or timeout
(`cleanup`).  After the loop, `if loop == 10 and rs:` logs an error and skips
the parameter-group deletions; otherwise every supplied group is deleted. -/
def cleanup (listings : Nat → List Inst) (lab : String)
    (pgroups : List String) : CleanupOut :=
  let r := cleanup_loop listings lab 10 0 true []
  if r.1 = 10 ∧ r.2.1 ≠ [] then ⟨r.1, r.2.1, r.2.2, true, []⟩
  else ⟨r.1, r.2.1, r.2.2, false, pgroups⟩

/-- Listings for which `cleanup` runs all ten rounds on stuck label-matching
instances, which disappear in the last round while an unrelated instance
remains listed. -/
def c4_listings : Nat → List Inst := fun n =>
  if n < 9 then [⟨"testing-0-pgtesting-0", "deleting"⟩]
  else [⟨"unrelated-instance", "available"⟩]

/-- Events observable on a database connection. -/
inductive Ev where
  | exec (s : String)
  | fetchall
  | closeCursor
deriving DecidableEq

/-- State of the connection used by `perform_test`: the number of `execute`
calls issued so far, the event trace, whether profiling is enabled on the
connection and whether the cursor is open. -/
structure St where
  count : Nat
  trace : List Ev
  profiling : Bool
  curOpen : Bool
deriving DecidableEq

def initSt : St := ⟨0, [], false, false⟩

/-- Effect of a successfully executed statement on the connection's profiling
flag. -/
def profStep (p : Bool) (s : String) : Bool :=
  if s = "set profiling=1" then true
  else if s = "set profiling=0" then false
  else p

/-- Profiling flag after successfully executing a statement list. -/
def profList (p : Bool) (ss : List String) : Bool :=
  ss.foldl profStep p

/-- One `c.execute(s, None)` call.  `failAt = some k` makes the `k`-th execute
call of the run raise; the raising statement has no effect. -/
def execStmt (failAt : Option Nat) (s : String) (st : St) : Except St St :=
  if failAt = some st.count then .error st
  else .ok { st with count := st.count + 1, trace := st.trace ++ [.exec s],
                     profiling := profStep st.profiling s }

/-- Executes the statements in order, stopping at the first raise. -/
def execList (failAt : Option Nat) : List String → St → Except St St
  | [], st => .ok st
  | s :: rest, st =>
    match execStmt failAt s st with
    | .error st2 => .error st2
    | .ok st2 => execList failAt rest st2

/-- One `c.fetchall()` call. -/
def fetchall (st : St) : St :=
  { st with trace := st.trace ++ [.fetchall] }

/-- The detailed retrieval statement
`"show profile \x7b\x7d for query \x7b\x7d".format(profile_list, i)`. -/
def queryStmt (profiles : List String) (i : Nat) : String :=
  "show profile " ++ String.intercalate "," profiles ++ " for query " ++ toString i

/-- The `for i, s in enumerate(sql)` loop of `perform_test`: skips index 0 and
issues one detailed per-category retrieval per remaining statement. -/
def profileLoop (failAt : Option Nat) (profiles : List String) :
    Nat → List String → St → Except St St
  | _, [], st => .ok st
  | i, _ :: rest, st =>
    if i = 0 then profileLoop failAt profiles (i + 1) rest st
    else
      match execStmt failAt (queryStmt profiles i) st with
      | .error st2 => .error st2
      | .ok st2 => profileLoop failAt profiles (i + 1) rest (fetchall st2)

/-- The `try` body of `perform_test`: executes the workload statements in
order, retrieves the per-query summary (`show profiles` plus a fetch),
retrieves the per-query details and finally disables profiling.  The first
raise aborts the rest of the body. -/
def pt_body (failAt : Option Nat) (profiles sql : List String)
    (st : St) : Except St St :=
  match execList failAt sql st with
  | .error st2 => .error st2
  | .ok st2 =>
    match execStmt failAt "show profiles" st2 with
    | .error st3 => .error st3
    | .ok st3 =>
      match profileLoop failAt profiles 0 sql (fetchall st3) with
      | .error st5 => .error st5
      | .ok st5 => execStmt failAt "set profiling=0" st5

/-- Profiles a list of SQL statements (`perform_test`).  The source binds the
workload to the user-supplied `test_sql()`; the model takes the statement list
as the `sql` argument.  Opens the cursor, runs the `try` body; the bare
`except` re-raises and the `finally` closes the cursor on both outcomes.
Returns the final state and whether an exception propagated. -/
def perform_test (failAt : Option Nat) (profiles sql : List String)
    (st0 : St) : St × Bool :=
  match pt_body failAt profiles sql { st0 with curOpen := true } with
  | .ok st =>
    ({ st with curOpen := false, trace := st.trace ++ [.closeCursor] }, false)
  | .error st =>
    ({ st with curOpen := false, trace := st.trace ++ [.closeCursor] }, true)

/-- The readiness wait of `create_db`: `inst.update()` refreshes the status,
repeating (with a 30 second sleep before each refresh) until the status reads
`'available'`.  `status k` is the status the `k`-th refresh observes; the loop
has no bound, so the model needs eventual availability to terminate and
returns the index of the refresh that first observes `'available'`. -/
def create_db_wait (status : Nat → String)
    (h : ∃ k, status k = "available") : Nat :=
  Nat.find h

/-- A status oracle that stays `'creating'` for `n` refreshes and reads
`'available'` from then on. -/
def delayed (n : Nat) : Nat → String := fun k =>
  if k < n then "creating" else "available"

/-- Resource outcome of one connection-scoped stage. -/
structure StageOut where
  connEverOpened : Bool
  curEverOpened : Bool
  connOpen : Bool
  curOpen : Bool
  raised : Bool
  logged : Bool
deriving DecidableEq

/-- Whether executing `stmts` in order raises, when the `idx`-th execute call
(counting from the stage's first) is the one that fails. -/
def run_stage_stmts (failAt : Option Nat) : Nat → List String → Bool
  | _, [] => false
  | idx, _ :: rest =>
    if failAt = some idx then true else run_stage_stmts failAt (idx + 1) rest

/-- The statements the bootstrap in `create_db` executes. -/
def create_db_stmts : List String :=
  ["CREATE DATABASE " ++ DEFAULT_DATABASE,
   "grant all on " ++ DEFAULT_DATABASE ++ ".* to " ++ DEFAULT_USER ++
     "@\x27%\x27 identified by \x27" ++ DEFAULT_PASSWD ++ "\x27"]

/-- The bootstrap of `create_db` (after the readiness wait): `connect`, open a
cursor, execute the two setup statements inside `try`, log on a statement
error, and close cursor and connection in `finally`.  `connectOK = false`
models `connect` raising, which propagates before any resource is opened. -/
def create_db_bootstrap (connectOK : Bool) (failAt : Option Nat) : StageOut :=
  if connectOK then
    let failed := run_stage_stmts failAt 0 create_db_stmts
    ⟨true, true, false, false, false, failed⟩
  else ⟨false, false, false, false, true, false⟩

/-- Loads a specific database with test data (`load_db`): `connect`, open a
cursor, execute the load statements inside `try`, log on a statement error,
and close cursor and connection in `finally`. -/
def load_db_model (connectOK : Bool) (failAt : Option Nat)
    (sql : List String) : StageOut :=
  if connectOK then
    let failed := run_stage_stmts failAt 0 sql
    ⟨true, true, false, false, false, failed⟩
  else ⟨false, false, false, false, true, false⟩

/-- Performs a test against a specific RDS instance (`perform_rds_test`):
`connect` and `perform_test` run inside `try`; the `except` logs and
re-raises and the `finally` closes the connection.  When `connect` itself
raises, `db` is unbound, so the handlers fault again and the exception
propagates with no resource ever opened. -/
def perform_rds_test_model (connectOK : Bool) (failAt : Option Nat)
    (profiles sql : List String) : StageOut :=
  if connectOK then
    let r := perform_test failAt profiles sql initSt
    ⟨true, true, false, r.1.curOpen, r.2, r.2⟩
  else ⟨false, false, false, false, true, false⟩

/-! Theorems.  Helper lemmas come first, then one theorem per claim with its
witness or counterexample. -/

theorem apply_params_ok (env : RdsEnv) (pg_name : String) :
    ∀ (ps l : List (String × Value)),
      apply_params env pg_name ps = .ok l → l = ps := by
  intro ps
  induction ps with
  | nil =>
    intro l h
    simp only [apply_params, Except.ok.injEq] at h
    exact h.symm
  | cons pv rest ih =>
    intro l h
    obtain ⟨p, v⟩ := pv
    simp only [apply_params] at h
    cases hsp : (set_param env pg_name p v).2 <;> rw [hsp] at h
    case appliedFirst =>
      cases hap : apply_params env pg_name rest <;> rw [hap] at h
      case error e => exact absurd h (by simp)
      case ok l2 =>
        simp only [Except.ok.injEq] at h
        rw [← h, ih l2 hap]
    case appliedSecond =>
      cases hap : apply_params env pg_name rest <;> rw [hap] at h
      case error e => exact absurd h (by simp)
      case ok l2 =>
        simp only [Except.ok.injEq] at h
        rw [← h, ih l2 hap]
    case keyError => exact absurd h (by simp)
    case applyError b => exact absurd h (by simp)

theorem create_param_groups_go_spec (env : RdsEnv) (pre : String) :
    ∀ (specs : List (List (String × Value))) (index : Nat) (out : CPGOut),
      create_param_groups_go env pre index specs = .ok out →
      out.names = (List.range' index specs.length).map
          (fun j => "pg" ++ pre ++ "-" ++ toString j) ∧
      out.applied = specs := by
  intro specs
  induction specs with
  | nil =>
    intro index out h
    simp only [create_param_groups_go, Except.ok.injEq] at h
    rw [← h]
    exact ⟨rfl, rfl⟩
  | cons ps rest ih =>
    intro index out h
    simp only [create_param_groups_go] at h
    cases hap : apply_params env ("pg" ++ pre ++ "-" ++ toString index) ps <;>
      rw [hap] at h
    case error e => exact absurd h (by simp)
    case ok l =>
      cases hgo : create_param_groups_go env pre (index + 1) rest <;> rw [hgo] at h
      case error e => exact absurd h (by simp)
      case ok out2 =>
        simp only [Except.ok.injEq] at h
        obtain ⟨hn, ha⟩ := ih (index + 1) out2 hgo
        rw [← h]
        constructor
        · simp [hn, List.range'_succ]
        · simp [ha, apply_params_ok env _ ps l hap]

/-- C1, counterexample: `profile_report` renders the requested categories in
request order, so two permutations of the same requested set produce
different output, refuting the claim that the rendered order is the fixed
external order regardless of request order. -/
theorem C1_counterexample :
    profile_report_lines "select 1=1" [] [CPU_PROFILE, SOURCE_PROFILE] ≠
      profile_report_lines "select 1=1" [] [SOURCE_PROFILE, CPU_PROFILE] := by
  decide

/-- C1 (amended): the category order used in the rendered headers and metric
rows is the request order, prefixed by the `Always` block; the output agrees
with the fixed-external-order rendering exactly when the requested categories
are already supplied in the fixed external order, which is how the script
invokes it (`PROFILES = ALL_PROFILES`). -/
theorem C1_request_order (sql : String) (rows : List (List Value))
    (categories : List String) (h : categories = fixed_order categories) :
    profile_report_lines sql rows categories =
      profile_report_lines_fixed sql rows categories := by
  rw [profile_report_lines_fixed, ← h]

/-- Witness for C1: the fixed-order request `PROFILES` renders identically
under both definitions. -/
theorem C1_request_order_witness :
    profile_report_lines "select 1=1" [] PROFILES =
      profile_report_lines_fixed "select 1=1" [] PROFILES :=
  C1_request_order "select 1=1" [] PROFILES (by decide)

/-- C2, counterexample: for run label `testing` and a single empty
specification, the created group is named `pgtesting-0`, not `testing-0` as
the claim's `\x7brun-label\x7d-\x7bi\x7d` scheme states. -/
theorem C2_counterexample :
    create_param_groups env0 "testing" [[]] =
      .ok ⟨["pgtesting-0"], [[]]⟩ ∧ "pgtesting-0" ≠ "testing-0" :=
  ⟨rfl, by decide⟩

/-- C2 (amended): the group created for the `i`-th specification is named
`"pg" ++ run-label ++ "-" ++ i`, and the returned list contains these names,
one per specification, in input order. -/
theorem C2_group_names (env : RdsEnv) (pre : String)
    (specs : List (List (String × Value))) (out : CPGOut)
    (h : create_param_groups env pre specs = .ok out) :
    out.names =
      (List.range specs.length).map (fun i => "pg" ++ pre ++ "-" ++ toString i) := by
  rw [List.range_eq_range']
  exact (create_param_groups_go_spec env pre specs 0 out h).1

/-- Witness for C2. -/
theorem C2_group_names_witness :
    (⟨["pgtesting-0"], [[]]⟩ : CPGOut).names =
      (List.range 1).map (fun i => "pg" ++ "testing" ++ "-" ++ toString i) :=
  C2_group_names env0 "testing" [[]] ⟨["pgtesting-0"], [[]]⟩ rfl

/-- C5: when the parameter is absent from the first fetched catalog page,
`set_param` issues exactly one re-fetch, passing the first fetch's
continuation marker, and applies the parameter from that second page; a
failure of the retried application (or the parameter still being absent)
surfaces with no further fetch or retry. -/
theorem C5_marker_retry (env : RdsEnv) (pg_name param : String) (val : Value)
    (h : param ∉ (env.fetch pg_name none).names) :
    (set_param env pg_name param val).1 =
      [none, some (env.fetch pg_name none).marker] ∧
    (set_param env pg_name param val).2 =
      (if param ∈ (env.fetch pg_name (some (env.fetch pg_name none).marker)).names then
         (if env.applyOK pg_name param val then SPResult.appliedSecond
          else SPResult.applyError true)
       else SPResult.keyError) := by
  simp only [set_param]
  rw [if_neg h]
  exact ⟨rfl, rfl⟩

/-- Witness for C5: with `envC5` the parameter is missing from the first page
and is applied from the page re-fetched with marker `MK1`. -/
theorem C5_marker_retry_witness :
    (set_param envC5 "g" "param_x" (Value.s "v")).1 = [none, some "MK1"] ∧
    (set_param envC5 "g" "param_x" (Value.s "v")).2 = SPResult.appliedSecond := by
  have h := C5_marker_retry envC5 "g" "param_x" (Value.s "v") (by simp [envC5])
  exact ⟨h.1, h.2⟩

/-- C6: for every variant specification run through `add_utf8_support` and
`create_param_groups`, the parameter values applied to its group are the
input deltas in order followed by the seven appended utf8 defaults; an empty
specification gets exactly the utf8 defaults. -/
theorem C6_applied_values (env : RdsEnv) (pre : String)
    (specs : List (List (String × Value))) (out : CPGOut)
    (h : create_param_groups env pre (specs.map add_utf8_support) = .ok out) :
    out.applied = specs.map (fun l => l ++ utf8params) := by
  have h2 := (create_param_groups_go_spec env pre (specs.map add_utf8_support) 0 out h).2
  exact h2

/-- Witness for C6, at the script's own `parameters` list: the empty variant
gets exactly the utf8 defaults and the buffer-size variant gets its three
deltas followed by them. -/
theorem C6_applied_values_witness :
    (⟨["pgtesting-0", "pgtesting-1"],
      [[] ++ utf8params, vary_spec ++ utf8params]⟩ : CPGOut).applied =
      parameters.map (fun l => l ++ utf8params) :=
  C6_applied_values envOk label parameters
    ⟨["pgtesting-0", "pgtesting-1"], [[] ++ utf8params, vary_spec ++ utf8params]⟩ rfl

theorem cleanup_loop_false (listings : Nat → List Inst) (lab : String)
    (fuel loop : Nat) (rs : List Inst) :
    cleanup_loop listings lab fuel loop false rs = (loop, rs, []) := by
  cases fuel <;> rfl

theorem cleanup_loop_loopFinal (listings : Nat → List Inst) (lab : String) :
    ∀ (fuel loop : Nat) (lbl : Bool) (rs : List Inst),
      (cleanup_loop listings lab fuel loop lbl rs).1 =
        loop + (cleanup_loop listings lab fuel loop lbl rs).2.2.length := by
  intro fuel
  induction fuel with
  | zero => intro loop lbl rs; rfl
  | succ fuel ih =>
    intro loop lbl rs
    cases lbl
    · rfl
    · simp only [cleanup_loop, if_true, List.length_cons]
      rw [ih]
      omega

theorem cleanup_loop_len_le (listings : Nat → List Inst) (lab : String) :
    ∀ (fuel loop : Nat) (lbl : Bool) (rs : List Inst),
      (cleanup_loop listings lab fuel loop lbl rs).2.2.length ≤ fuel := by
  intro fuel
  induction fuel with
  | zero => intro loop lbl rs; simp [cleanup_loop]
  | succ fuel ih =>
    intro loop lbl rs
    cases lbl
    · simp [cleanup_loop]
    · simp only [cleanup_loop, if_true, List.length_cons]
      exact Nat.succ_le_succ (ih _ _ _)

theorem cleanup_loop_dropLast (listings : Nat → List Inst) (lab : String) :
    ∀ (fuel loop : Nat) (lbl : Bool) (rs : List Inst),
      ((cleanup_loop listings lab fuel loop lbl rs).2.2).dropLast.all
        (fun r => !r.label_rs.isEmpty) = true := by
  intro fuel
  induction fuel with
  | zero => intro loop lbl rs; rfl
  | succ fuel ih =>
    intro loop lbl rs
    cases lbl
    · rfl
    · simp only [cleanup_loop, if_true]
      cases hm : ((listings loop).filter (fun d => strContains lab d.id)).isEmpty
      case false =>
        simp only [Bool.not_false]
        rcases hrest : (cleanup_loop listings lab fuel (loop + 1) true
            (listings loop)).2.2 with _ | ⟨r2, rs2⟩
        · rfl
        · rw [List.dropLast_cons₂, List.all_cons, Bool.and_eq_true]
          have h2 := ih (loop + 1) true (listings loop)
          rw [hrest] at h2
          exact ⟨by simp [hm], h2⟩
      case true =>
        simp [cleanup_loop_false]


theorem cleanup_loop_slept (listings : Nat → List Inst) (lab : String) :
    ∀ (fuel loop : Nat) (lbl : Bool) (rs : List Inst),
      ((cleanup_loop listings lab fuel loop lbl rs).2.2).all
        (fun r => r.slept == !r.label_rs.isEmpty) = true := by
  intro fuel
  induction fuel with
  | zero => intro loop lbl rs; rfl
  | succ fuel ih =>
    intro loop lbl rs
    cases lbl
    · rfl
    · simp only [cleanup_loop, if_true, List.all_cons, Bool.and_eq_true]
      exact ⟨by simp, ih _ _ _⟩

theorem cleanup_rounds_eq (listings : Nat → List Inst) (lab : String)
    (pgroups : List String) :
    (cleanup listings lab pgroups).rounds =
      (cleanup_loop listings lab 10 0 true []).2.2 := by
  simp only [cleanup]
  split <;> rfl

theorem cleanup_rsFinal_eq (listings : Nat → List Inst) (lab : String)
    (pgroups : List String) :
    (cleanup listings lab pgroups).rsFinal =
      (cleanup_loop listings lab 10 0 true []).2.1 := by
  simp only [cleanup]
  split <;> rfl

/-- C7: `cleanup` performs at most 10 polling rounds, every round before the
last one still saw label-matching instances (so polling stops as soon as none
remain), and a round ends with the 60-second sleep exactly when label-matching
instances remained in that round's listing. -/
theorem C7_polling_bound (listings : Nat → List Inst) (lab : String)
    (pgroups : List String) :
    (cleanup listings lab pgroups).rounds.length ≤ 10 ∧
    (cleanup listings lab pgroups).rounds.dropLast.all
      (fun r => !r.label_rs.isEmpty) = true ∧
    (cleanup listings lab pgroups).rounds.all
      (fun r => r.slept == !r.label_rs.isEmpty) = true := by
  rw [cleanup_rounds_eq]
  exact ⟨cleanup_loop_len_le listings lab 10 0 true [],
         cleanup_loop_dropLast listings lab 10 0 true [],
         cleanup_loop_slept listings lab 10 0 true []⟩

/-- C4, counterexample: with label-matching instances stuck in a
non-deletable status for nine rounds and gone in the tenth, while an
unrelated instance remains listed, the loop exhausts its bound with no
label-matching resource left, yet `cleanup` logs the timeout error and
deletes no parameter group, because the final check `if loop == 10 and rs:`
tests the full listing `rs` rather than the label-filtered one.  This
refutes the claimed equivalence. -/
theorem C4_counterexample :
    ¬ (((cleanup c4_listings "testing" ["pgtesting-0"]).pgDeletes =
          ["pgtesting-0"]) ↔
       ¬ ((cleanup c4_listings "testing" ["pgtesting-0"]).loopFinal = 10 ∧
          (cleanup c4_listings "testing" ["pgtesting-0"]).rsFinal.filter
            (fun d => strContains "testing" d.id) ≠ [])) := by
  decide

/-- C4 (amended): after the polling loop, the supplied parameter groups are
all deleted if and only if it is not the case that all ten rounds ran and the
final round's full instance listing (label-matching or not) was nonempty; in
that exhausted-with-nonempty-listing case an error is logged and no parameter
group is deleted. -/
theorem C4_deletion_condition (listings : Nat → List Inst) (lab : String)
    (pgroups : List String) :
    (cleanup listings lab pgroups).pgDeletes =
      (if (cleanup listings lab pgroups).rounds.length = 10 ∧
          (cleanup listings lab pgroups).rsFinal ≠ [] then
        ([] : List String)
       else pgroups) ∧
    (cleanup listings lab pgroups).errorLogged =
      decide ((cleanup listings lab pgroups).rounds.length = 10 ∧
              (cleanup listings lab pgroups).rsFinal ≠ []) := by
  rw [cleanup_rounds_eq, cleanup_rsFinal_eq]
  have hl := cleanup_loop_loopFinal listings lab 10 0 true []
  have hlen : (cleanup_loop listings lab 10 0 true []).2.2.length =
      (cleanup_loop listings lab 10 0 true []).1 := by omega
  rw [hlen]
  simp only [cleanup]
  split
  case isTrue h => simp [h]
  case isFalse h => simp [h]

theorem delayed_ex (n : Nat) : ∃ k, delayed n k = "available" :=
  ⟨n, by simp [delayed]⟩

/-- C9: the readiness wait of `create_db` proceeds exactly at the first
refresh whose status reads `available` (no earlier refresh did), and the
number of refreshes is unbounded over the oracles: for every run there is an
oracle needing one refresh more than this run used. -/
theorem C9_readiness (status : Nat → String)
    (h : ∃ k, status k = "available") :
    status (create_db_wait status h) = "available" ∧
    ((List.range (create_db_wait status h)).all
      (fun j => !(status j == "available"))) = true ∧
    create_db_wait (delayed (create_db_wait status h + 1))
        (delayed_ex (create_db_wait status h + 1)) =
      create_db_wait status h + 1 := by
  refine ⟨Nat.find_spec h, ?_, ?_⟩
  · simp only [List.all_eq_true, List.mem_range, Bool.not_eq_true',
      beq_eq_false_iff_ne, ne_eq]
    intro j hj
    exact Nat.find_min h hj
  · rw [create_db_wait, Nat.find_eq_iff]
    refine ⟨by simp [delayed], ?_⟩
    intro m hm
    simp [delayed, hm]

/-- Witness for C9, with a status oracle that becomes available at the third
refresh. -/
theorem C9_readiness_witness :
    delayed 2 (create_db_wait (delayed 2) (delayed_ex 2)) = "available" ∧
    ((List.range (create_db_wait (delayed 2) (delayed_ex 2))).all
      (fun j => !(delayed 2 j == "available"))) = true ∧
    create_db_wait (delayed (create_db_wait (delayed 2) (delayed_ex 2) + 1))
        (delayed_ex (create_db_wait (delayed 2) (delayed_ex 2) + 1)) =
      create_db_wait (delayed 2) (delayed_ex 2) + 1 :=
  C9_readiness (delayed 2) (delayed_ex 2)

theorem perform_test_curOpen (failAt : Option Nat) (profiles sql : List String)
    (st0 : St) : (perform_test failAt profiles sql st0).1.curOpen = false := by
  rw [perform_test]
  rcases pt_body failAt profiles sql { st0 with curOpen := true } with st | st <;>
    rfl

/-- C3: every connection-scoped stage — the bootstrap inside `create_db`, the
data load in `load_db` and the workload test in `perform_rds_test` — ends
with the connection and cursor it opened closed, on normal completion, on a
statement error and on an unexpected fault alike; and a connection is ever
opened in a stage exactly when `connect` succeeds. -/
theorem C3_connection_closure (connectOK : Bool) (failAt : Option Nat)
    (profiles sql : List String) :
    (create_db_bootstrap connectOK failAt).connOpen = false ∧
    (create_db_bootstrap connectOK failAt).curOpen = false ∧
    (load_db_model connectOK failAt sql).connOpen = false ∧
    (load_db_model connectOK failAt sql).curOpen = false ∧
    (perform_rds_test_model connectOK failAt profiles sql).connOpen = false ∧
    (perform_rds_test_model connectOK failAt profiles sql).curOpen = false ∧
    (create_db_bootstrap connectOK failAt).connEverOpened = connectOK ∧
    (load_db_model connectOK failAt sql).connEverOpened = connectOK ∧
    (perform_rds_test_model connectOK failAt profiles sql).connEverOpened =
      connectOK := by
  cases connectOK <;>
    simp [create_db_bootstrap, load_db_model, perform_rds_test_model,
      perform_test_curOpen]

theorem queryStmt_length (profiles : List String) (i : Nat) :
    24 ≤ (queryStmt profiles i).length := by
  have h1 : ("show profile " : String).length = 13 := rfl
  have h2 : (" for query " : String).length = 11 := rfl
  simp only [queryStmt, String.length_append]
  omega

theorem queryStmt_ne (profiles : List String) (i : Nat) (t : String)
    (ht : t.length < 24) : queryStmt profiles i ≠ t := by
  intro he
  have hc := congrArg String.length he
  have h24 := queryStmt_length profiles i
  omega

theorem profStep_queryStmt (p : Bool) (profiles : List String) (i : Nat) :
    profStep p (queryStmt profiles i) = p := by
  rw [profStep, if_neg (queryStmt_ne profiles i _ (by decide)),
      if_neg (queryStmt_ne profiles i _ (by decide))]

theorem execStmt_none (s : String) (st : St) :
    execStmt none s st = .ok { st with
      count := st.count + 1
      trace := st.trace ++ [.exec s]
      profiling := profStep st.profiling s } := by
  rw [execStmt, if_neg (by simp)]

theorem execList_none :
    ∀ (ss : List String) (st : St),
      execList none ss st = .ok { st with
        count := st.count + ss.length
        trace := st.trace ++ ss.map Ev.exec
        profiling := profList st.profiling ss } := by
  intro ss
  induction ss with
  | nil => intro st; simp [execList, profList]
  | cons s rest ih =>
    intro st
    obtain ⟨c, t, p, u⟩ := st
    simp only [execList, execStmt_none]
    rw [ih]
    simp only [Except.ok.injEq, St.mk.injEq, profList, List.foldl_cons,
      List.length_cons, List.map_cons]
    refine ⟨by omega, by simp, by simp, by simp⟩

theorem profileLoop_none (profiles : List String) :
    ∀ (rem : List String) (i : Nat) (st : St), i ≠ 0 →
      profileLoop none profiles i rem st = .ok { st with
        count := st.count + rem.length
        trace := st.trace ++ (List.range' i rem.length).flatMap
          (fun j => [Ev.exec (queryStmt profiles j), Ev.fetchall])
        profiling := st.profiling } := by
  intro rem
  induction rem with
  | nil => intro i st hi; simp [profileLoop]
  | cons s rest ih =>
    intro i st hi
    obtain ⟨c, t, p, u⟩ := st
    simp only [profileLoop, if_neg hi, execStmt_none, fetchall]
    rw [ih (i + 1) _ (by omega)]
    simp only [Except.ok.injEq, St.mk.injEq, List.length_cons]
    refine ⟨by omega, by simp [List.range'_succ], by simp [profStep_queryStmt], by simp⟩

theorem profileLoop_zero (failAt : Option Nat) (profiles sql : List String)
    (st : St) :
    profileLoop failAt profiles 0 sql st =
      (match sql with
       | [] => .ok st
       | _ :: tl => profileLoop failAt profiles 1 tl st) := by
  cases sql <;> simp [profileLoop]

theorem pt_body_err1 (failAt : Option Nat) (profiles sql : List String)
    (st st2 : St) (h : execList failAt sql st = .error st2) :
    pt_body failAt profiles sql st = .error st2 := by
  rw [pt_body, h]

theorem pt_body_err2 (failAt : Option Nat) (profiles sql : List String)
    (st st2 st3 : St) (h1 : execList failAt sql st = .ok st2)
    (h2 : execStmt failAt "show profiles" st2 = .error st3) :
    pt_body failAt profiles sql st = .error st3 := by
  rw [pt_body, h1]
  dsimp only
  rw [h2]

theorem pt_body_err3 (failAt : Option Nat) (profiles sql : List String)
    (st st2 st3 st5 : St) (h1 : execList failAt sql st = .ok st2)
    (h2 : execStmt failAt "show profiles" st2 = .ok st3)
    (h3 : profileLoop failAt profiles 0 sql (fetchall st3) = .error st5) :
    pt_body failAt profiles sql st = .error st5 := by
  rw [pt_body, h1]
  dsimp only
  rw [h2]
  dsimp only
  rw [h3]

theorem pt_body_err4 (failAt : Option Nat) (profiles sql : List String)
    (st st2 st3 st5 st6 : St) (h1 : execList failAt sql st = .ok st2)
    (h2 : execStmt failAt "show profiles" st2 = .ok st3)
    (h3 : profileLoop failAt profiles 0 sql (fetchall st3) = .ok st5)
    (h4 : execStmt failAt "set profiling=0" st5 = .error st6) :
    pt_body failAt profiles sql st = .error st6 := by
  rw [pt_body, h1]
  dsimp only
  rw [h2]
  dsimp only
  rw [h3]
  dsimp only
  rw [h4]

theorem pt_body_ok (failAt : Option Nat) (profiles sql : List String)
    (st st2 st3 st5 st6 : St) (h1 : execList failAt sql st = .ok st2)
    (h2 : execStmt failAt "show profiles" st2 = .ok st3)
    (h3 : profileLoop failAt profiles 0 sql (fetchall st3) = .ok st5)
    (h4 : execStmt failAt "set profiling=0" st5 = .ok st6) :
    pt_body failAt profiles sql st = .ok st6 := by
  rw [pt_body, h1]
  dsimp only
  rw [h2]
  dsimp only
  rw [h3]
  dsimp only
  rw [h4]

theorem profileLoop_zero_cons (failAt : Option Nat) (profiles : List String)
    (s : String) (tl : List String) (st : St) :
    profileLoop failAt profiles 0 (s :: tl) st =
      profileLoop failAt profiles 1 tl st := rfl

theorem pt_body_ok_cons (failAt : Option Nat) (profiles : List String)
    (s : String) (tl : List String) (st st2 st3 st5 st6 : St)
    (h1 : execList failAt (s :: tl) st = .ok st2)
    (h2 : execStmt failAt "show profiles" st2 = .ok st3)
    (h3 : profileLoop failAt profiles 1 tl (fetchall st3) = .ok st5)
    (h4 : execStmt failAt "set profiling=0" st5 = .ok st6) :
    pt_body failAt profiles (s :: tl) st = .ok st6 := by
  rw [pt_body, h1]
  dsimp only
  rw [h2]
  dsimp only
  rw [profileLoop_zero_cons, h3]
  dsimp only
  rw [h4]

theorem pt_body_err3_cons (failAt : Option Nat) (profiles : List String)
    (s : String) (tl : List String) (st st2 st3 st5 : St)
    (h1 : execList failAt (s :: tl) st = .ok st2)
    (h2 : execStmt failAt "show profiles" st2 = .ok st3)
    (h3 : profileLoop failAt profiles 1 tl (fetchall st3) = .error st5) :
    pt_body failAt profiles (s :: tl) st = .error st5 := by
  rw [pt_body, h1]
  dsimp only
  rw [h2]
  dsimp only
  rw [profileLoop_zero_cons, h3]

theorem pt_body_err4_cons (failAt : Option Nat) (profiles : List String)
    (s : String) (tl : List String) (st st2 st3 st5 st6 : St)
    (h1 : execList failAt (s :: tl) st = .ok st2)
    (h2 : execStmt failAt "show profiles" st2 = .ok st3)
    (h3 : profileLoop failAt profiles 1 tl (fetchall st3) = .ok st5)
    (h4 : execStmt failAt "set profiling=0" st5 = .error st6) :
    pt_body failAt profiles (s :: tl) st = .error st6 := by
  rw [pt_body, h1]
  dsimp only
  rw [h2]
  dsimp only
  rw [profileLoop_zero_cons, h3]
  dsimp only
  rw [h4]

theorem perform_test_of_ok (failAt : Option Nat) (profiles sql : List String)
    (st0 st : St)
    (h : pt_body failAt profiles sql { st0 with curOpen := true } = .ok st) :
    perform_test failAt profiles sql st0 =
      ({ st with curOpen := false, trace := st.trace ++ [.closeCursor] },
       false) := by
  rw [perform_test, h]

theorem perform_test_of_error (failAt : Option Nat) (profiles sql : List String)
    (st0 st : St)
    (h : pt_body failAt profiles sql { st0 with curOpen := true } = .error st) :
    perform_test failAt profiles sql st0 =
      ({ st with curOpen := false, trace := st.trace ++ [.closeCursor] },
       true) := by
  rw [perform_test, h]

/-- C8: with no statement failing, `perform_test` issues, in statement order,
exactly one detailed per-category retrieval for each workload statement index
`i ≥ 1` (the profiling-enable statement at index 0 is excluded), each for
query id `i`, and after all retrievals executes `set profiling=0` before
closing the cursor. -/
theorem C8_detail_trace (profiles sql : List String) :
    (perform_test none profiles sql initSt).2 = false ∧
    (perform_test none profiles sql initSt).1.curOpen = false ∧
    (perform_test none profiles sql initSt).1.trace =
      sql.map Ev.exec ++ [Ev.exec "show profiles", Ev.fetchall] ++
        (List.range' 1 (sql.length - 1)).flatMap
          (fun i => [Ev.exec (queryStmt profiles i), Ev.fetchall]) ++
        [Ev.exec "set profiling=0", Ev.closeCursor] := by
  cases sql with
  | nil => exact ⟨rfl, rfl, rfl⟩
  | cons s tl =>
    have hb := pt_body_ok_cons none profiles s tl ⟨0, [], false, true⟩ _ _ _ _
      (execList_none (s :: tl) ⟨0, [], false, true⟩)
      (execStmt_none "show profiles" _)
      (profileLoop_none profiles tl 1 _ (by omega))
      (execStmt_none "set profiling=0" _)
    have hp := perform_test_of_ok none profiles (s :: tl) initSt _ hb
    rw [hp]
    refine ⟨rfl, rfl, ?_⟩
    simp [fetchall, List.length_cons]

theorem execStmt_some_ne (k : Nat) (s : String) (st : St) (h : st.count ≠ k) :
    execStmt (some k) s st = .ok { st with
      count := st.count + 1
      trace := st.trace ++ [.exec s]
      profiling := profStep st.profiling s } := by
  rw [execStmt, if_neg (by simp only [Option.some.injEq]; omega)]

theorem execStmt_some_eq (k : Nat) (s : String) (st : St) (h : st.count = k) :
    execStmt (some k) s st = .error st := by
  rw [execStmt, if_pos (by rw [h])]

theorem execList_ge (k : Nat) :
    ∀ (ss : List String) (st : St), st.count + ss.length ≤ k →
      execList (some k) ss st = .ok { st with
        count := st.count + ss.length
        trace := st.trace ++ ss.map Ev.exec
        profiling := profList st.profiling ss } := by
  intro ss
  induction ss with
  | nil => intro st h; simp [execList, profList]
  | cons s rest ih =>
    intro st h
    obtain ⟨c, t, p, u⟩ := st
    simp only [List.length_cons] at h
    have he : execStmt (some k) s ⟨c, t, p, u⟩ =
        .ok ⟨c + 1, t ++ [.exec s], profStep p s, u⟩ :=
      execStmt_some_ne k s _ (by show c ≠ k; omega)
    simp only [execList, he]
    rw [ih _ (by show c + 1 + rest.length ≤ k; omega)]
    simp only [Except.ok.injEq, St.mk.injEq, profList, List.foldl_cons,
      List.length_cons, List.map_cons]
    refine ⟨by omega, by simp, by simp, by simp⟩

theorem execList_lt (k : Nat) :
    ∀ (ss : List String) (st : St), st.count ≤ k → k < st.count + ss.length →
      execList (some k) ss st = .error { st with
        count := k
        trace := st.trace ++ (ss.take (k - st.count)).map Ev.exec
        profiling := profList st.profiling (ss.take (k - st.count)) } := by
  intro ss
  induction ss with
  | nil => intro st h1 h2; exfalso; simp at h2; omega
  | cons s rest ih =>
    intro st h1 h2
    obtain ⟨c, t, p, u⟩ := st
    dsimp only at h1 h2
    by_cases hk : c = k
    · subst hk
      have he : execStmt (some c) s ⟨c, t, p, u⟩ = .error ⟨c, t, p, u⟩ :=
        execStmt_some_eq c s _ rfl
      simp only [execList, he]
      simp [profList]
    · have he : execStmt (some k) s ⟨c, t, p, u⟩ =
          .ok ⟨c + 1, t ++ [.exec s], profStep p s, u⟩ :=
        execStmt_some_ne k s _ (by show c ≠ k; exact hk)
      simp only [execList, he]
      rw [ih _ (by show c + 1 ≤ k; omega)
          (by show k < c + 1 + rest.length; simp at h2; omega)]
      have ht : k - c = (k - (c + 1)) + 1 := by omega
      simp only [Except.error.injEq, St.mk.injEq, ht, List.take_succ_cons,
        List.map_cons, profList, List.foldl_cons]
      refine ⟨by simp, by simp, by simp, by simp⟩

theorem profileLoop_ge (k : Nat) (profiles : List String) :
    ∀ (rem : List String) (i : Nat) (st : St), i ≠ 0 →
      st.count + rem.length ≤ k →
      profileLoop (some k) profiles i rem st = .ok { st with
        count := st.count + rem.length
        trace := st.trace ++ (List.range' i rem.length).flatMap
          (fun j => [Ev.exec (queryStmt profiles j), Ev.fetchall])
        profiling := st.profiling } := by
  intro rem
  induction rem with
  | nil => intro i st hi h; simp [profileLoop]
  | cons s rest ih =>
    intro i st hi h
    obtain ⟨c, t, p, u⟩ := st
    simp only [List.length_cons] at h
    have he : execStmt (some k) (queryStmt profiles i) ⟨c, t, p, u⟩ =
        .ok ⟨c + 1, t ++ [.exec (queryStmt profiles i)],
             profStep p (queryStmt profiles i), u⟩ :=
      execStmt_some_ne k _ _ (by show c ≠ k; omega)
    simp only [profileLoop, if_neg hi, he, fetchall]
    rw [ih (i + 1) _ (by omega) (by show c + 1 + rest.length ≤ k; omega)]
    simp only [Except.ok.injEq, St.mk.injEq, List.length_cons]
    refine ⟨by omega, by simp [List.range'_succ], by simp [profStep_queryStmt],
      by simp⟩

theorem profileLoop_lt (k : Nat) (profiles : List String) :
    ∀ (rem : List String) (i : Nat) (st : St), i ≠ 0 → st.count ≤ k →
      k < st.count + rem.length →
      profileLoop (some k) profiles i rem st = .error { st with
        count := k
        trace := st.trace ++ (List.range' i (k - st.count)).flatMap
          (fun j => [Ev.exec (queryStmt profiles j), Ev.fetchall])
        profiling := st.profiling } := by
  intro rem
  induction rem with
  | nil => intro i st hi h1 h2; exfalso; simp at h2; omega
  | cons s rest ih =>
    intro i st hi h1 h2
    obtain ⟨c, t, p, u⟩ := st
    dsimp only at h1 h2
    by_cases hk : c = k
    · subst hk
      have he : execStmt (some c) (queryStmt profiles i) ⟨c, t, p, u⟩ =
          .error ⟨c, t, p, u⟩ :=
        execStmt_some_eq c _ _ rfl
      simp only [profileLoop, if_neg hi, he]
      simp
    · have he : execStmt (some k) (queryStmt profiles i) ⟨c, t, p, u⟩ =
          .ok ⟨c + 1, t ++ [.exec (queryStmt profiles i)],
               profStep p (queryStmt profiles i), u⟩ :=
        execStmt_some_ne k _ _ (by show c ≠ k; exact hk)
      simp only [profileLoop, if_neg hi, he, fetchall]
      rw [ih (i + 1) _ (by omega) (by show c + 1 ≤ k; omega)
          (by show k < c + 1 + rest.length; simp at h2; omega)]
      have ht : k - c = (k - (c + 1)) + 1 := by omega
      simp only [Except.error.injEq, St.mk.injEq, ht, List.range'_succ]
      refine ⟨by simp, by simp, by simp [profStep_queryStmt], by simp⟩

theorem profList_true :
    ∀ (ss : List String), "set profiling=0" ∉ ss → profList true ss = true := by
  intro ss
  induction ss with
  | nil => intro h; rfl
  | cons s rest ih =>
    intro h
    simp only [List.mem_cons, not_or] at h
    have hs : profStep true s = true := by
      rw [profStep]
      split
      · rfl
      · rw [if_neg (fun he => h.1 he.symm)]
    rw [profList, List.foldl_cons, hs]
    exact ih h.2

theorem profList_enable (p : Bool) (tl : List String)
    (h : "set profiling=0" ∉ tl) :
    profList p ("set profiling=1" :: tl) = true := by
  rw [profList, List.foldl_cons]
  have hs : profStep p "set profiling=1" = true := by rw [profStep, if_pos rfl]
  rw [hs]
  exact profList_true tl h

theorem profStep_show (p : Bool) : profStep p "show profiles" = p := by
  rw [profStep, if_neg (by decide), if_neg (by decide)]

theorem exec_notin_map (l : List String) (t : String) (hl : t ∉ l) :
    Ev.exec t ∉ l.map Ev.exec := by
  intro hm
  rw [List.mem_map] at hm
  obtain ⟨a, ha, he⟩ := hm
  injection he with h2
  subst h2
  exact hl ha

theorem exec_disable_notin_details (profiles : List String) (i m : Nat) :
    Ev.exec "set profiling=0" ∉ (List.range' i m).flatMap
      (fun j => [Ev.exec (queryStmt profiles j), Ev.fetchall]) := by
  intro hm
  rw [List.mem_flatMap] at hm
  obtain ⟨j, _, hj⟩ := hm
  simp only [List.mem_cons, List.not_mem_nil, or_false] at hj
  rcases hj with h | h
  · injection h with h2
    exact queryStmt_ne profiles j _ (by decide) h2.symm
  · exact Ev.noConfusion h

/-- C10: if the `k`-th execute call of `perform_test` raises after the
profiling-enable statement has run (and the workload itself never disables
profiling), `perform_test` closes the cursor and propagates the exception,
but the profiling-disable statement is never executed, so profiling remains
enabled on the connection. -/
theorem C10_profiling_left_enabled (profiles sql : List String) (k : Nat)
    (hhead : sql.head? = some "set profiling=1")
    (hnod : "set profiling=0" ∉ sql)
    (hk1 : 1 ≤ k) (hk2 : k ≤ 2 * sql.length) :
    (perform_test (some k) profiles sql initSt).2 = true ∧
    (perform_test (some k) profiles sql initSt).1.curOpen = false ∧
    (perform_test (some k) profiles sql initSt).1.profiling = true ∧
    Ev.exec "set profiling=0" ∉ (perform_test (some k) profiles sql initSt).1.trace := by
  cases sql with
  | nil => simp at hhead
  | cons s0 tl =>
  have hs0 : s0 = "set profiling=1" := by simpa using hhead
  subst hs0
  simp only [List.length_cons] at hk2
  have hnodtl : "set profiling=0" ∉ tl := fun hm => hnod (List.mem_cons_of_mem _ hm)
  have hne01 : ("set profiling=0" : String) ≠ "set profiling=1" := by decide
  by_cases hA : k < tl.length + 1
  · -- failure inside the workload loop
    have hel : execList (some k) ("set profiling=1" :: tl) ⟨0, [], false, true⟩ =
        .error ⟨k, [] ++ ((("set profiling=1" :: tl).take (k - 0)).map Ev.exec),
          profList false (("set profiling=1" :: tl).take (k - 0)), true⟩ :=
      execList_lt k _ _ (by show 0 ≤ k; omega) (by simp; omega)
    have hb := pt_body_err1 (some k) profiles ("set profiling=1" :: tl)
      ⟨0, [], false, true⟩ _ hel
    rw [perform_test_of_error (some k) profiles ("set profiling=1" :: tl)
      initSt _ hb]
    dsimp only
    have hk' : k - 0 = (k - 1) + 1 := by omega
    rw [hk', List.take_succ_cons]
    have hnotake : "set profiling=0" ∉ "set profiling=1" :: tl.take (k - 1) := by
      intro hm
      rcases List.mem_cons.mp hm with h | h
      · exact hne01 h
      · exact hnodtl (List.take_subset _ _ h)
    refine ⟨rfl, rfl,
      profList_enable false _ (fun hm => hnodtl (List.take_subset _ _ hm)), ?_⟩
    intro hm
    simp only [List.nil_append, List.mem_append, List.mem_cons,
      List.not_mem_nil, or_false] at hm
    rcases hm with hm | hm
    · exact exec_notin_map _ _ hnotake hm
    · exact Ev.noConfusion hm
  · -- the whole workload list executes
    have hel : execList (some k) ("set profiling=1" :: tl) ⟨0, [], false, true⟩ =
        .ok ⟨0 + (tl.length + 1), Ev.exec "set profiling=1" :: tl.map Ev.exec,
             profList false ("set profiling=1" :: tl), true⟩ :=
      execList_ge k _ _ (by simp; omega)
    by_cases hB : k = tl.length + 1
    · -- the summary retrieval raises
      have hsp : execStmt (some k) "show profiles"
          (⟨0 + (tl.length + 1), Ev.exec "set profiling=1" :: tl.map Ev.exec,
            profList false ("set profiling=1" :: tl), true⟩ : St) =
          .error ⟨0 + (tl.length + 1),
            Ev.exec "set profiling=1" :: tl.map Ev.exec,
            profList false ("set profiling=1" :: tl), true⟩ :=
        execStmt_some_eq k _ _ (by dsimp only; omega)
      have hb := pt_body_err2 (some k) profiles ("set profiling=1" :: tl)
        ⟨0, [], false, true⟩ _ _ hel hsp
      rw [perform_test_of_error (some k) profiles ("set profiling=1" :: tl)
        initSt _ hb]
      dsimp only
      refine ⟨rfl, rfl, profList_enable false tl hnodtl, ?_⟩
      intro hm
      rcases List.mem_append.mp hm with hm | hm
      · rcases List.mem_cons.mp hm with hm | hm
        · exact absurd hm (by decide)
        · exact exec_notin_map tl _ hnodtl hm
      · exact absurd hm (by decide)
    · -- the summary retrieval succeeds
      have hsp : execStmt (some k) "show profiles"
          (⟨0 + (tl.length + 1), Ev.exec "set profiling=1" :: tl.map Ev.exec,
            profList false ("set profiling=1" :: tl), true⟩ : St) =
          .ok ⟨0 + (tl.length + 1) + 1,
            (Ev.exec "set profiling=1" :: tl.map Ev.exec) ++
              [Ev.exec "show profiles"],
            profStep (profList false ("set profiling=1" :: tl)) "show profiles",
            true⟩ :=
        execStmt_some_ne k _ _ (by dsimp only; omega)
      by_cases hC : k < 2 * tl.length + 2
      · -- a detailed retrieval raises
        have hpl := profileLoop_lt k profiles tl 1
          (fetchall ⟨0 + (tl.length + 1) + 1,
            (Ev.exec "set profiling=1" :: tl.map Ev.exec) ++
              [Ev.exec "show profiles"],
            profStep (profList false ("set profiling=1" :: tl)) "show profiles",
            true⟩)
          (by omega) (by dsimp only [fetchall]; omega)
          (by dsimp only [fetchall]; omega)
        have hb := pt_body_err3_cons (some k) profiles "set profiling=1" tl
          ⟨0, [], false, true⟩ _ _ _ hel hsp hpl
        rw [perform_test_of_error (some k) profiles ("set profiling=1" :: tl)
          initSt _ hb]
        dsimp only [fetchall]
        refine ⟨rfl, rfl, ?_, ?_⟩
        · rw [profStep_show]
          exact profList_enable false tl hnodtl
        · intro hm
          rcases List.mem_append.mp hm with hm | hm
          · rcases List.mem_append.mp hm with hm | hm
            · rcases List.mem_append.mp hm with hm | hm
              · rcases List.mem_append.mp hm with hm | hm
                · rcases List.mem_cons.mp hm with hm | hm
                  · exact absurd hm (by decide)
                  · exact exec_notin_map tl _ hnodtl hm
                · exact absurd hm (by decide)
              · exact absurd hm (by decide)
            · exact exec_disable_notin_details profiles 1 _ hm
          · exact absurd hm (by decide)
      · -- every detailed retrieval succeeds and the disable raises
        have hpl : profileLoop (some k) profiles 1 tl
            (fetchall ⟨0 + (tl.length + 1) + 1,
              (Ev.exec "set profiling=1" :: tl.map Ev.exec) ++
                [Ev.exec "show profiles"],
              profStep (profList false ("set profiling=1" :: tl))
                "show profiles", true⟩) =
            .ok ⟨0 + (tl.length + 1) + 1 + tl.length,
              (((Ev.exec "set profiling=1" :: tl.map Ev.exec) ++
                  [Ev.exec "show profiles"]) ++ [Ev.fetchall]) ++
                (List.range' 1 tl.length).flatMap
                  (fun j => [Ev.exec (queryStmt profiles j), Ev.fetchall]),
              profStep (profList false ("set profiling=1" :: tl))
                "show profiles", true⟩ :=
          profileLoop_ge k profiles tl 1 _ (by omega)
            (by dsimp only [fetchall]; omega)
        have hdis : execStmt (some k) "set profiling=0"
            (⟨0 + (tl.length + 1) + 1 + tl.length,
              (((Ev.exec "set profiling=1" :: tl.map Ev.exec) ++
                  [Ev.exec "show profiles"]) ++ [Ev.fetchall]) ++
                (List.range' 1 tl.length).flatMap
                  (fun j => [Ev.exec (queryStmt profiles j), Ev.fetchall]),
              profStep (profList false ("set profiling=1" :: tl))
                "show profiles", true⟩ : St) =
            .error ⟨0 + (tl.length + 1) + 1 + tl.length,
              (((Ev.exec "set profiling=1" :: tl.map Ev.exec) ++
                  [Ev.exec "show profiles"]) ++ [Ev.fetchall]) ++
                (List.range' 1 tl.length).flatMap
                  (fun j => [Ev.exec (queryStmt profiles j), Ev.fetchall]),
              profStep (profList false ("set profiling=1" :: tl))
                "show profiles", true⟩ :=
          execStmt_some_eq k _ _ (by dsimp only; omega)
        have hb := pt_body_err4_cons (some k) profiles "set profiling=1" tl
          ⟨0, [], false, true⟩ _ _ _ _ hel hsp hpl hdis
        rw [perform_test_of_error (some k) profiles ("set profiling=1" :: tl)
          initSt _ hb]
        dsimp only [fetchall]
        refine ⟨rfl, rfl, ?_, ?_⟩
        · rw [profStep_show]
          exact profList_enable false tl hnodtl
        · intro hm
          rcases List.mem_append.mp hm with hm | hm
          · rcases List.mem_append.mp hm with hm | hm
            · rcases List.mem_append.mp hm with hm | hm
              · rcases List.mem_append.mp hm with hm | hm
                · rcases List.mem_cons.mp hm with hm | hm
                  · exact absurd hm (by decide)
                  · exact exec_notin_map tl _ hnodtl hm
                · exact absurd hm (by decide)
              · exact absurd hm (by decide)
            · exact exec_disable_notin_details profiles 1 _ hm
          · exact absurd hm (by decide)

/-- Witness for C10: the script's own workload with its second statement (the
profiled query) raising. -/
theorem C10_profiling_left_enabled_witness :
    (perform_test (some 1) PROFILES test_sql initSt).2 = true ∧
    (perform_test (some 1) PROFILES test_sql initSt).1.curOpen = false ∧
    (perform_test (some 1) PROFILES test_sql initSt).1.profiling = true ∧
    Ev.exec "set profiling=0" ∉
      (perform_test (some 1) PROFILES test_sql initSt).1.trace :=
  C10_profiling_left_enabled PROFILES test_sql 1 rfl (by decide) (by decide)
    (by decide)

end ProfileRds

